import Mathlib

/-!
Verification of the swarm/kubernetes provisioner core of this repository
(`provision/swarm/docker.go`, `provision/swarm/provisioner.go`, `api/app/s3.go`)
against its natural-language specification.

Shallow embedding conventions:
* Go `int` label values and increments are modelled as `Int`; the Go
  `uint64(replicas)` conversion is modelled as `Int.emod _ (2 ^ 64)`
  (two's-complement wrap), see `goUint64`.
* Docker label values are strings in Go; the numeric labels
  (`tsuru.replicas`, `tsuru.restarts`) are modelled directly as the
  integers they encode, and the boolean labels (`tsuru.is-stopped`,
  `tsuru.is-asleep`) as `Bool`.
* Backend RPC outcomes that the control flow branches on (create, wait,
  attach, AWS deletions, ...) are supplied as explicit environment
  parameters; the emitted backend calls are recorded in a trace where a
  claim is about which calls happen.
-/

/-- `servicecommon.ProcessState` (transition intent). Fields as in Go:
`Start`, `Stop`, `Restart`, `Sleep` booleans and `Increment` (signed). -/
structure ProcessState where
  start : Bool
  stop : Bool
  restart : Bool
  sleep : Bool
  increment : Int
deriving Repr, DecidableEq

/-- The Go zero value of `servicecommon.ProcessState`, passed implicitly by
`runOnceBuildCmds` and `ExecuteCommandIsolated` which leave the field unset. -/
def ProcessState.zero : ProcessState :=
  { start := false, stop := false, restart := false, sleep := false, increment := 0 }

/-- The process state passed by `swarmProvisioner.Stop`
(provisioner.go lines 172-180): `ProcessState{Stop: true}`. -/
def stopOnlyState : ProcessState :=
  { start := false, stop := true, restart := false, sleep := false, increment := 0 }

/-- The process state passed by `swarmProvisioner.Start`
(provisioner.go lines 162-170): `ProcessState{Start: true}`. -/
def startOnlyState : ProcessState :=
  { start := true, stop := false, restart := false, sleep := false, increment := 0 }

/-- Restart policy condition of a swarm service spec
(`swarm.RestartPolicyConditionAny` / `...None`). -/
inductive RestartCondition where
  | any
  | none
deriving Repr, DecidableEq

/-- The part of `swarm.ServiceSpec` that `serviceSpecForApp` constructs and
reads back: the service name, the tsuru label set used as out-of-band
counters (lines 385-405 of docker.go), the backend replica count
(`Mode.Replicated.Replicas`), and the task restart policy. -/
structure ServiceSpec where
  name : String
  /-- value of the `tsuru.replicas` label (`labels.AppReplicas()`). -/
  labelReplicas : Int
  /-- value of the `tsuru.restarts` label (`labels.Restarts()`). -/
  labelRestarts : Int
  /-- whether `labels.SetStopped()` was applied (`labels.IsStopped()`). -/
  labelStopped : Bool
  /-- whether `labels.SetAsleep()` was applied (`labels.IsAsleep()`). -/
  labelAsleep : Bool
  /-- `Mode.Replicated.Replicas`; `Option.none` models a spec with a
  non-replicated mode (never produced by `serviceSpecForApp`). -/
  replicated : Option Int
  restartCondition : RestartCondition
deriving Repr, DecidableEq

/-- `tsuruServiceOpts` (docker.go lines 287-297), restricted to the fields the
counter/name/replica logic reads. -/
structure TsuruServiceOpts where
  appName : String
  process : String
  image : String
  baseSpec : Option ServiceSpec
  isDeploy : Bool
  isIsolatedRun : Bool
  processState : ProcessState

/-- Errors surfaced by the spec builder. `invalidScale` is the
`errors.New("cannot have less than 0 units")` error of docker.go line 363. -/
inductive SpecError where
  | invalidScale
deriving Repr, DecidableEq

/-- `serviceNameForApp` (docker.go lines 279-281):
`fmt.Sprintf("%s-%s", a.GetName(), process)`. -/
def serviceNameForApp (appName process : String) : String :=
  appName ++ "-" ++ process

/-- Go `uint64(i)` conversion for an `int` value, as used for `uReplicas`
(docker.go line 399); two's-complement wrap, identity on `[0, 2^64)`. -/
def goUint64 (i : Int) : Int :=
  Int.emod i (2 ^ 64)

/-- Read-back of the replica counter from a previous spec (docker.go lines
350-355): `oldLabels.AppReplicas()`, falling back to
`Mode.Replicated.Replicas` when the label holds zero; zero when no previous
spec exists. -/
def baseReplicas : Option ServiceSpec → Int
  | Option.none => 0
  | some bs =>
      if bs.labelReplicas = 0 then
        match bs.replicated with
        | some n => n
        | Option.none => 0
      else bs.labelReplicas

/-- Read-back of the restart counter (docker.go line 356). -/
def baseRestarts : Option ServiceSpec → Int
  | Option.none => 0
  | some bs => bs.labelRestarts

/-- Read-back of the stopped flag (docker.go line 357). -/
def baseIsStopped : Option ServiceSpec → Bool
  | Option.none => false
  | some bs => bs.labelStopped

/-- Read-back of the asleep flag (docker.go line 358). -/
def baseIsAsleep : Option ServiceSpec → Bool
  | Option.none => false
  | some bs => bs.labelAsleep

/-- `serviceSpecForApp` (docker.go lines 311-443), restricted to the counter,
replica, name and restart-policy logic (lines 346-443).  The
environment/command/healthcheck construction of lines 312-345 calls external
collaborators and carries no information the claims mention, so it is not
modelled.  Control flow is mirrored step by step:

1. read counters back from `opts.baseSpec` (lines 346-359);
2. apply the increment, failing when the result would be negative
   (lines 360-365);
3. on start/restart clamp replicas to at least 1 and clear the stopped and
   asleep flags (lines 366-372);
4. compute the service name, forcing one replica and appending `"-build"` /
   `"isolated-run"` for deploy / isolated-run specs (lines 373-381);
5. on restart increment the restart counter (lines 382-384);
6. build the label set and the backend replica count, zeroing the latter and
   stamping the stopped label when stopped, and stamping the asleep label
   when asleep (lines 385-406);
7. the restart policy is always `RestartPolicyConditionAny` here
   (lines 423-425); `runOnceCmds` overrides it for ephemeral services. -/
def serviceSpecForApp (opts : TsuruServiceOpts) : Except SpecError ServiceSpec :=
  let replicas0 : Int := baseReplicas opts.baseSpec
  let restartCount0 : Int := baseRestarts opts.baseSpec
  let isStopped0 : Bool := baseIsStopped opts.baseSpec
  let isAsleep0 : Bool := baseIsAsleep opts.baseSpec
  let inc := opts.processState.increment
  if inc ≠ 0 ∧ replicas0 + inc < 0 then
    Except.error SpecError.invalidScale
  else
    let replicas1 : Int := replicas0 + inc
    let startOrRestart := opts.processState.start || opts.processState.restart
    let replicas2 : Int :=
      if startOrRestart ∧ replicas1 = 0 then 1 else replicas1
    let isStopped1 : Bool := if startOrRestart then false else isStopped0
    let isAsleep1 : Bool := if startOrRestart then false else isAsleep0
    let srvName0 := serviceNameForApp opts.appName opts.process
    let replicas3 : Int := if opts.isDeploy then 1 else replicas2
    let srvName1 := if opts.isDeploy then srvName0 ++ "-build" else srvName0
    let replicas4 : Int := if opts.isIsolatedRun then 1 else replicas3
    let srvName2 :=
      if opts.isIsolatedRun then srvName1 ++ "isolated-run" else srvName1
    let restartCount1 : Int :=
      if opts.processState.restart then restartCount0 + 1 else restartCount0
    let stoppedLabel := isStopped1 || opts.processState.stop
    let uReplicas : Int := if stoppedLabel then 0 else goUint64 replicas4
    Except.ok
      { name := srvName2
        labelReplicas := replicas4
        labelRestarts := restartCount1
        labelStopped := stoppedLabel
        labelAsleep := isAsleep1 || opts.processState.sleep
        replicated := some uReplicas
        restartCondition := RestartCondition.any }

/-! ## Reconciler (serviceManager) -/

/-- A service object stored in the backend: its current spec and its
optimistic-concurrency version token (`Version.Index`). -/
structure StoredService where
  spec : ServiceSpec
  version : Nat
deriving Repr, DecidableEq

/-- The backend's service store, keyed by service name (docker resolves the
`ID` field of remove/inspect options against names as well). -/
abbrev Backend := String → Option StoredService

/-- A backend RPC issued by the reconciler (used as a trace to state that an
error path performs no create/update call). -/
inductive BackendCall where
  | inspect (name : String)
  | create (name : String)
  | update (name : String) (version : Nat)
deriving Repr, DecidableEq

/-- Whether a backend call mutates backend state. -/
def BackendCall.isMutation : BackendCall → Bool
  | BackendCall.inspect _ => false
  | BackendCall.create _ => true
  | BackendCall.update _ _ => true

/-- Outcome of `serviceManager.DeployService`: the returned error (if any),
the backend state afterwards, and the backend calls issued. -/
structure DeployResult where
  result : Except SpecError Unit
  backend : Backend
  calls : List BackendCall

/-- `serviceManager.DeployService` (provisioner.go lines 895-935):
inspect the service by its deterministic name; hand the existing spec (if
any) to the spec builder so counters survive; on builder error return it
(before any create/update); otherwise create when absent, else update in
place with the current version token.  Create/update RPC transport failures
are not modelled (the claims under scrutiny concern the pre-RPC error path
and the success path). -/
def deployService (b : Backend) (appName process : String)
    (pState : ProcessState) (imgID : String) : DeployResult :=
  let srvName := serviceNameForApp appName process
  let found := b srvName
  let opts : TsuruServiceOpts :=
    { appName := appName
      process := process
      image := imgID
      baseSpec := found.map StoredService.spec
      isDeploy := false
      isIsolatedRun := false
      processState := pState }
  match serviceSpecForApp opts with
  | Except.error e =>
      { result := Except.error e
        backend := b
        calls := [BackendCall.inspect srvName] }
  | Except.ok spec =>
      match found with
      | Option.none =>
          { result := Except.ok ()
            backend := fun n =>
              if n = srvName then some { spec := spec, version := 0 } else b n
            calls := [BackendCall.inspect srvName, BackendCall.create srvName] }
      | some srv =>
          { result := Except.ok ()
            backend := fun n =>
              if n = srvName then some { spec := spec, version := srv.version + 1 }
              else b n
            calls := [BackendCall.inspect srvName,
                      BackendCall.update srvName srv.version] }

/-- Errors of service removal. `noSuchService` is docker's
`*docker.NoSuchService`; `other` stands for any other RPC failure. -/
inductive RemoveErr where
  | noSuchService (name : String)
  | other (msg : String)
deriving Repr, DecidableEq

/-- The docker client's `RemoveService` call: removing an absent service
reports `NoSuchService`, removing a present one deletes it. -/
def clientRemoveService (b : Backend) (name : String) :
    Except RemoveErr Backend :=
  match b name with
  | Option.none => Except.error (RemoveErr.noSuchService name)
  | some _ => Except.ok (fun n => if n = name then Option.none else b n)

/-- `serviceManager.RemoveService` (provisioner.go lines 886-893): delete by
deterministic name; ANY client error — including `NoSuchService` — is
wrapped with `errors.WithStack` and returned. -/
def managerRemoveService (b : Backend) (appName process : String) :
    Except RemoveErr Backend :=
  match clientRemoveService b (serviceNameForApp appName process) with
  | Except.error e => Except.error e
  | Except.ok b2 => Except.ok b2

/-- `swarmProvisioner.Destroy` (provisioner.go lines 101-130): remove each
process's service, adding an error to the multi-error only when it is NOT
`NoSuchService`; then remove the app network (its failure is also
accumulated); succeed iff the multi-error stays empty.  The process list
(from `image.AllAppProcesses`) and the network-removal outcome are
parameters. -/
def destroyLoop (b : Backend) : List String → Backend × List RemoveErr
  | [] => (b, [])
  | name :: rest =>
      match clientRemoveService b name with
      | Except.error (RemoveErr.noSuchService _) => destroyLoop b rest
      | Except.error e =>
          let r := destroyLoop b rest
          (r.1, e :: r.2)
      | Except.ok b2 => destroyLoop b2 rest

/-- `swarmProvisioner.Destroy`, see `destroyLoop`. -/
def destroy (b : Backend) (appName : String) (processes : List String)
    (networkRemoveErr : Option RemoveErr) : Except (List RemoveErr) Backend :=
  let names := processes.map (serviceNameForApp appName)
  let r := destroyLoop b names
  let errs :=
    match networkRemoveErr with
    | Option.none => r.2
    | some e => r.2 ++ [e]
  if errs.isEmpty then Except.ok r.1 else Except.error errs

/-! ## Ephemeral task runner (runOnceCmds and its callers) -/

/-- `tsuruServiceOpts` as built by `runOnceBuildCmds` (provisioner.go lines
937-945): deploy variant, no process, no base spec, zero process state. -/
def buildOpts (appName imgID : String) : TsuruServiceOpts :=
  { appName := appName
    process := ""
    image := imgID
    baseSpec := Option.none
    isDeploy := true
    isIsolatedRun := false
    processState := ProcessState.zero }

/-- `tsuruServiceOpts` as built by `ExecuteCommandIsolated` (provisioner.go
lines 784-808): isolated-run variant, no process, no base spec, zero
process state. -/
def isolatedOpts (appName imgID : String) : TsuruServiceOpts :=
  { appName := appName
    process := ""
    image := imgID
    baseSpec := Option.none
    isDeploy := false
    isIsolatedRun := true
    processState := ProcessState.zero }

/-- The spec actually handed to `CreateService` by `runOnceCmds`
(provisioner.go lines 948-953): the built spec with its command replaced by
the supplied one and its restart policy condition overridden to
`RestartPolicyConditionNone`. -/
def runOnceSpec (opts : TsuruServiceOpts) : Except SpecError ServiceSpec :=
  match serviceSpecForApp opts with
  | Except.error e => Except.error e
  | Except.ok spec =>
      Except.ok { spec with restartCondition := RestartCondition.none }

/-- The single task observed by `waitForTasks` for an ephemeral service. -/
structure TaskInfo where
  nodeID : String
  containerID : String
deriving Repr, DecidableEq

/-- Errors returned by `runOnceCmds`; `taskFailed` is the
`errors.Errorf("unexpected result code for build container: %d", exitCode)`
error of provisioner.go line 984, carrying the container exit code. -/
inductive RunErr where
  | specFailed (e : SpecError)
  | createFailed (msg : String)
  | waitFailed (msg : String)
  | nodeClientFailed (msg : String)
  | attachFailed (msg : String)
  | taskFailed (exitCode : Int)
deriving Repr, DecidableEq

/-- Outcomes of the backend calls made by `runOnceCmds`, in program order:
service creation (yielding the created service's ID), waiting for the task
(`waitForTasks`, whose failures cover both task failure/rejection and the
polling timeout), obtaining a client for the task's node, and the
attach-and-wait returning the container exit code. -/
structure RunOnceEnv where
  createResult : Except String String
  waitResult : Except String TaskInfo
  nodeClientResult : Except String Unit
  attachResult : Except String Int

/-- `runOnceCmds` (provisioner.go lines 947-987).  Returns the created
service ID (`""` when creation never happened, exactly as the Go code
returns `""` before `CreateService` succeeds) together with the run
outcome.  Every return after creation passes the created ID through so the
caller can clean up. -/
def runOnceCmds (opts : TsuruServiceOpts) (env : RunOnceEnv) :
    String × Except RunErr TaskInfo :=
  match runOnceSpec opts with
  | Except.error e => ("", Except.error (RunErr.specFailed e))
  | Except.ok _spec =>
      match env.createResult with
      | Except.error m => ("", Except.error (RunErr.createFailed m))
      | Except.ok createdID =>
          match env.waitResult with
          | Except.error m => (createdID, Except.error (RunErr.waitFailed m))
          | Except.ok task =>
              match env.nodeClientResult with
              | Except.error m =>
                  (createdID, Except.error (RunErr.nodeClientFailed m))
              | Except.ok _ =>
                  match env.attachResult with
                  | Except.error m =>
                      (createdID, Except.error (RunErr.attachFailed m))
                  | Except.ok exitCode =>
                      if exitCode ≠ 0 then
                        (createdID, Except.error (RunErr.taskFailed exitCode))
                      else
                        (createdID, Except.ok task)

/-- `removeServiceAndLog` (docker.go lines 445-452): issue the removal and,
when it fails, append a log line; the error is never returned. -/
def removeServiceAndLog (removeFails : Bool) : List String :=
  if removeFails then ["error removing service"] else []

/-- Outcome of a caller of `runOnceCmds` that owns the cleanup
(`ExecuteCommandIsolated`, and the deferred cleanup of
`ArchiveDeploy`/`ImageDeploy` follow the same `srvID != ""` guard): the
returned result, the number of removal attempts, and the log lines. -/
structure RunOnceCallerResult where
  result : Except RunErr Unit
  removeCalls : Nat
  logs : List String
deriving Repr

/-- `ExecuteCommandIsolated`'s tail (provisioner.go lines 803-807): run the
ephemeral service, attempt removal exactly when a service ID was returned,
log (and swallow) a removal failure, and return the run error unchanged. -/
def executeIsolatedRun (opts : TsuruServiceOpts) (env : RunOnceEnv)
    (removeFails : Bool) : RunOnceCallerResult :=
  let r := runOnceCmds opts env
  let cleanup : Nat × List String :=
    if r.1 ≠ "" then (1, removeServiceAndLog removeFails) else (0, [])
  { result :=
      match r.2 with
      | Except.error e => Except.error e
      | Except.ok _ => Except.ok ()
    removeCalls := cleanup.1
    logs := cleanup.2 }

/-! ## Cluster membership: redistributeManagers -/

/-- `maxSwarmManagers` (docker.go line 36). -/
def maxSwarmManagers : Nat := 7

/-- Swarm node role. -/
inductive NodeRole where
  | manager
  | worker
deriving Repr, DecidableEq

/-- A valid swarm node as listed by `listValidNodes`: its ID and current
role (the other spec fields do not participate in `redistributeManagers`). -/
structure SNode where
  id : String
  role : NodeRole
deriving Repr, DecidableEq

/-- The promotion loop of `redistributeManagers` (docker.go lines 130-143)
acting on the first `total` nodes: a node already a manager is skipped,
any other node has its role set to manager (via `UpdateNode`). -/
def promoteFirst : Nat → List SNode → List SNode
  | _, [] => []
  | 0, ns => ns
  | k + 1, n :: ns =>
      (if n.role = NodeRole.manager then n else { n with role := NodeRole.manager })
        :: promoteFirst k ns

/-- The IDs for which the loop issues an `UpdateNode` promotion, in loop
order. -/
def promotedIds : Nat → List SNode → List String
  | _, [] => []
  | 0, _ => []
  | k + 1, n :: ns =>
      if n.role = NodeRole.manager then promotedIds k ns
      else n.id :: promotedIds k ns

/-- `redistributeManagers` (docker.go lines 118-145): cap the number of
considered nodes at `min (number of valid nodes) maxSwarmManagers` and
promote, in list order, every considered node that is not already a
manager.  Returns the resulting node list and the promoted IDs.
`UpdateNode` RPC failures (which abort the loop) are not modelled; the
claim concerns the promotion pattern. -/
def redistributeManagers (nodes : List SNode) : List SNode × List String :=
  let total := min nodes.length maxSwarmManagers
  (promoteFirst total nodes, promotedIds total nodes)

/-- Number of manager-role nodes in a list. -/
def managerCount (nodes : List SNode) : Nat :=
  nodes.countP (fun n => n.role = NodeRole.manager)

/-! ## Read operations degrading on a missing cluster -/

/-- Errors from `chooseDBSwarmNode`; `noSwarmNode` is the distinguished
`errNoSwarmNode`. -/
inductive SwarmErr where
  | noSwarmNode
  | other (msg : String)
deriving Repr, DecidableEq

/-- Errors from the kubernetes `getClusterClient`; `noCluster` is the
distinguished `errNoCluster`. -/
inductive KubeErr where
  | noCluster
  | other (msg : String)
deriving Repr, DecidableEq

/-- `swarmProvisioner.Units` (provisioner.go lines 257-278), with the task
listing and translation after a client is obtained abstracted as `body`:
a `noSwarmNode` failure degrades to an empty unit list, any other client
failure propagates. -/
def swarmUnits {γ υ : Type} (client : Except SwarmErr γ)
    (body : γ → Except SwarmErr (List υ)) : Except SwarmErr (List υ) :=
  match client with
  | Except.error e =>
      if e = SwarmErr.noSwarmNode then Except.ok [] else Except.error e
  | Except.ok c => body c

/-- `swarmProvisioner.ListNodes` (provisioner.go lines 394-425), node listing
abstracted as `body`: a `noSwarmNode` failure degrades to an empty node
list (the Go code returns `nil, nil`). -/
def swarmListNodes {γ ν : Type} (client : Except SwarmErr γ)
    (body : γ → Except SwarmErr (List ν)) : Except SwarmErr (List ν) :=
  match client with
  | Except.error e =>
      if e = SwarmErr.noSwarmNode then Except.ok [] else Except.error e
  | Except.ok c => body c

/-- `kubernetesProvisioner.Units` (kubernetes portion of docker.go, lines
851-867): ANY `getClusterClient` failure — `errNoCluster` included — is
returned as-is; there is no degradation to an empty result. -/
def kubeUnits {γ υ : Type} (client : Except KubeErr γ)
    (body : γ → Except KubeErr (List υ)) : Except KubeErr (List υ) :=
  match client with
  | Except.error e => Except.error e
  | Except.ok c => body c

/-- `kubernetesProvisioner.ListNodes` (kubernetes portion of docker.go,
lines 941-948): an `errNoCluster` failure degrades to an empty node list
(`nil, nil`); other failures propagate. -/
def kubeListNodes {γ ν : Type} (client : Except KubeErr γ)
    (body : γ → Except KubeErr (List ν)) : Except KubeErr (List ν) :=
  match client with
  | Except.error e =>
      if e = KubeErr.noCluster then Except.ok [] else Except.error e
  | Except.ok c => body c

/-! ## Instance lookup by container ID -/

/-- A swarm task as inspected by `findTaskByContainerId`: only
`Status.ContainerStatus.ContainerID` is read. -/
structure STask where
  containerID : String
deriving Repr, DecidableEq

/-- Go's `strings.HasPrefix(s, pre)`: whether `s` begins with `pre`,
modelled on the character lists of the two strings. -/
def goHasPrefix (s pre : String) : Bool :=
  pre.data.isPrefixOf s.data

/-- `findTaskByContainerId` (provisioner.go lines 342-349): return the first
task `t` with `strings.HasPrefix(t.Status.ContainerStatus.ContainerID,
unitId)`; when none matches, return
`provision.UnitNotFoundError{ID: unitId}`, modelled as
`Except.error unitId`. -/
def findTaskByContainerId (tasks : List STask) (unitId : String) :
    Except String STask :=
  match tasks with
  | [] => Except.error unitId
  | t :: ts =>
      if goHasPrefix t.containerID unitId then Except.ok t
      else findTaskByContainerId ts unitId

/-! ## destroyBucket (api/app/s3.go) -/

/-- An AWS deletion call issued by `destroyBucket`, with its arguments. -/
inductive S3Call where
  | deleteUserPolicy (policyName userName : String)
  | delBucket (bucketName : String)
  | deleteAccessKey (keyId : String)
  | deleteUser (userName : String)
deriving Repr, DecidableEq

/-- Outcomes of the four AWS deletions, in program order; `some msg` is a
failure. -/
structure AwsEnv where
  deleteUserPolicyErr : Option String
  delBucketErr : Option String
  deleteAccessKeyErr : Option String
  deleteUserErr : Option String

/-- Go's `strings.ToLower` restricted to ASCII (the only case-mapping the
app names here exercise), modelled on the character list. -/
def goToLower (s : String) : String :=
  String.mk (s.data.map Char.toLower)

/-- `destroyBucket` (s3.go lines 183-203): lowercase the app name; read
`TSURU_S3_ACCESS_KEY_ID` and `TSURU_S3_BUCKET` from the app's instance
environment (supplied here as `accessKeyId` / `bucketName`); then delete,
in order, the user policy `app-<name>-bucket`, the bucket, the access key
and the IAM user, returning at the first failure.  The returned trace
records the calls attempted, in order. -/
def destroyBucket (rawAppName bucketName accessKeyId : String)
    (env : AwsEnv) : Except String Unit × List S3Call :=
  let appName := goToLower rawAppName
  let policyName := "app-" ++ appName ++ "-bucket"
  let c1 := S3Call.deleteUserPolicy policyName appName
  match env.deleteUserPolicyErr with
  | some e => (Except.error e, [c1])
  | Option.none =>
      let c2 := S3Call.delBucket bucketName
      match env.delBucketErr with
      | some e => (Except.error e, [c1, c2])
      | Option.none =>
          let c3 := S3Call.deleteAccessKey accessKeyId
          match env.deleteAccessKeyErr with
          | some e => (Except.error e, [c1, c2, c3])
          | Option.none =>
              let c4 := S3Call.deleteUser appName
              match env.deleteUserErr with
              | some e => (Except.error e, [c1, c2, c3, c4])
              | Option.none => (Except.ok (), [c1, c2, c3, c4])

/-! ## Claim C1 -/

/-- C1: the spec builder reads the `replicas`, `restart-count`, `stopped`
and `asleep` counters back from the previous spec's label set (all zero /
false when no previous spec exists), and for every call carrying a previous
spec in which `state.start` or `state.restart` is set (such calls come from
`Start`/`Restart`, which never combine with `stop`/`sleep`), the built spec
has replicas `max (previous replicas + increment) 1`, cleared stopped and
asleep flags, and a restart count incremented exactly when `state.restart`
is set. -/
theorem c1_counters_readback_start_restart :
    (baseReplicas Option.none = 0 ∧ baseRestarts Option.none = 0 ∧
      baseIsStopped Option.none = false ∧ baseIsAsleep Option.none = false)
    ∧ (∀ bs : ServiceSpec,
        (bs.labelReplicas ≠ 0 → baseReplicas (some bs) = bs.labelReplicas)
        ∧ baseRestarts (some bs) = bs.labelRestarts
        ∧ baseIsStopped (some bs) = bs.labelStopped
        ∧ baseIsAsleep (some bs) = bs.labelAsleep)
    ∧ ∀ (a p img : String) (bs : ServiceSpec) (st : ProcessState),
        st.stop = false → st.sleep = false →
        (st.start = true ∨ st.restart = true) →
        0 ≤ baseReplicas (some bs) + st.increment →
        serviceSpecForApp
          { appName := a, process := p, image := img, baseSpec := some bs,
            isDeploy := false, isIsolatedRun := false, processState := st } =
        Except.ok
          { name := serviceNameForApp a p
            labelReplicas := max (baseReplicas (some bs) + st.increment) 1
            labelRestarts := bs.labelRestarts + (if st.restart then 1 else 0)
            labelStopped := false
            labelAsleep := false
            replicated :=
              some (goUint64 (max (baseReplicas (some bs) + st.increment) 1))
            restartCondition := RestartCondition.any } := by
  refine ⟨⟨rfl, rfl, rfl, rfl⟩, ?_, ?_⟩
  · intro bs
    refine ⟨fun h => ?_, rfl, rfl, rfl⟩
    simp [baseReplicas, h]
  · intro a p img bs st hstop hsleep hsr hnn
    have hinc :
        ¬(st.increment ≠ 0 ∧ baseReplicas (some bs) + st.increment < 0) :=
      fun h => absurd hnn (not_le.mpr h.2)
    have hmax :
        (if baseReplicas (some bs) + st.increment = 0 then (1 : Int)
          else baseReplicas (some bs) + st.increment) =
        max (baseReplicas (some bs) + st.increment) 1 := by
      split
      · omega
      · exact (max_eq_left (by omega)).symm
    rcases hsr with h | h
    · simp [serviceSpecForApp, hstop, hsleep, h, hinc, hmax, baseRestarts]
      cases hr : st.restart <;> simp
    · simp [serviceSpecForApp, hstop, hsleep, h, hinc, hmax, baseRestarts]

/-- C1 witness: the claim's scenario — previous spec with replicas 3 and
restart-count 2, state `restart := true` — yields replicas 3, restart-count
3, stopped false. -/
theorem c1_counters_readback_start_restart_witness :
    serviceSpecForApp
      { appName := "mini", process := "web", image := "img",
        baseSpec := some
          { name := "mini-web", labelReplicas := 3, labelRestarts := 2,
            labelStopped := false, labelAsleep := false,
            replicated := some 3, restartCondition := RestartCondition.any },
        isDeploy := false, isIsolatedRun := false,
        processState :=
          { start := false, stop := false, restart := true, sleep := false,
            increment := 0 } } =
    Except.ok
      { name := "mini-web", labelReplicas := 3, labelRestarts := 3,
        labelStopped := false, labelAsleep := false, replicated := some 3,
        restartCondition := RestartCondition.any } := by
  have h := c1_counters_readback_start_restart.2.2 "mini" "web" "img"
    { name := "mini-web", labelReplicas := 3, labelRestarts := 2,
      labelStopped := false, labelAsleep := false, replicated := some 3,
      restartCondition := RestartCondition.any }
    { start := false, stop := false, restart := true, sleep := false,
      increment := 0 }
    rfl rfl (Or.inr rfl) (by decide)
  simpa [baseReplicas, goUint64] using h

/-! ## Claim C2 -/

/-- C2: whenever the previous (non-negative) replica count plus
`state.increment` would be negative, the spec builder fails with the
`InvalidScale` error, and `serviceManager.DeployService` returns that error
having issued only the inspect call — no create or update — so the backend
is unchanged. -/
theorem c2_invalid_scale_no_mutation :
    (∀ (opts : TsuruServiceOpts) (bs : ServiceSpec),
        opts.baseSpec = some bs →
        0 ≤ baseReplicas (some bs) →
        baseReplicas (some bs) + opts.processState.increment < 0 →
        serviceSpecForApp opts = Except.error SpecError.invalidScale)
    ∧ ∀ (b : Backend) (a p img : String) (st : ProcessState)
        (svc : StoredService),
        b (serviceNameForApp a p) = some svc →
        0 ≤ baseReplicas (some svc.spec) →
        baseReplicas (some svc.spec) + st.increment < 0 →
        deployService b a p st img =
          { result := Except.error SpecError.invalidScale
            backend := b
            calls := [BackendCall.inspect (serviceNameForApp a p)] } := by
  have hspec : ∀ (opts : TsuruServiceOpts) (bs : ServiceSpec),
      opts.baseSpec = some bs →
      0 ≤ baseReplicas (some bs) →
      baseReplicas (some bs) + opts.processState.increment < 0 →
      serviceSpecForApp opts = Except.error SpecError.invalidScale := by
    intro opts bs hbs hnn hneg
    have hcond : opts.processState.increment ≠ 0 ∧
        baseReplicas opts.baseSpec + opts.processState.increment < 0 := by
      rw [hbs]
      exact ⟨fun h0 => by omega, hneg⟩
    simp [serviceSpecForApp, hcond]
  refine ⟨hspec, ?_⟩
  intro b a p img st svc hfound hnn hneg
  have h := hspec
    { appName := a, process := p, image := img,
      baseSpec := some svc.spec, isDeploy := false, isIsolatedRun := false,
      processState := st } svc.spec rfl hnn hneg
  simp [deployService, hfound, h]

/-- C2 witness: the claim's scenario — previous spec with replicas 2 and
increment -5 — makes the deploy fail with `InvalidScale` after only the
inspect call. -/
theorem c2_invalid_scale_no_mutation_witness :
    deployService
      (fun n =>
        if n = "mini-web" then
          some ⟨⟨"mini-web", 2, 0, false, false, some 2,
            RestartCondition.any⟩, 4⟩
        else Option.none)
      "mini" "web" ⟨false, false, false, false, -5⟩ "img" =
    { result := Except.error SpecError.invalidScale
      backend := fun n =>
        if n = "mini-web" then
          some ⟨⟨"mini-web", 2, 0, false, false, some 2,
            RestartCondition.any⟩, 4⟩
        else Option.none
      calls := [BackendCall.inspect "mini-web"] } := by
  have h := c2_invalid_scale_no_mutation.2
    (fun n =>
      if n = "mini-web" then
        some ⟨⟨"mini-web", 2, 0, false, false, some 2,
          RestartCondition.any⟩, 4⟩
      else Option.none)
    "mini" "web" "img" ⟨false, false, false, false, -5⟩
    ⟨⟨"mini-web", 2, 0, false, false, some 2, RestartCondition.any⟩, 4⟩
    (by simp [serviceNameForApp]) (by decide) (by decide)
  simpa [serviceNameForApp] using h

/-! ## Claim C3 -/

/-- C3: for an existing service whose spec records `n ≥ 1` replicas, a
deploy with `state = {stop: true}` followed by one with
`state = {start: true}` restores the replica count: the stop deploy keeps
`n` in the replicas label while sending 0 replicas to the backend, and the
start deploy reads `n` back from that label, ending with `n` both in the
label and at the backend.  (`n < 2^64` keeps the Go `uint64` conversion of
the replica count the identity.) -/
theorem c3_stop_start_restores_replicas :
    ∀ (b : Backend) (a p img1 img2 : String) (svc : StoredService) (n : Int),
      b (serviceNameForApp a p) = some svc →
      svc.spec.labelReplicas = n → 1 ≤ n → n < 2 ^ 64 →
      ∃ s1 s2 : ServiceSpec, ∃ v1 v2 : Nat,
        (deployService b a p stopOnlyState img1).result = Except.ok () ∧
        (deployService b a p stopOnlyState img1).backend
            (serviceNameForApp a p) = some ⟨s1, v1⟩ ∧
        s1.labelReplicas = n ∧ s1.replicated = some 0 ∧
        s1.labelStopped = true ∧
        (deployService (deployService b a p stopOnlyState img1).backend
            a p startOnlyState img2).result = Except.ok () ∧
        (deployService (deployService b a p stopOnlyState img1).backend
            a p startOnlyState img2).backend (serviceNameForApp a p) =
          some ⟨s2, v2⟩ ∧
        s2.labelReplicas = n ∧ s2.replicated = some n ∧
        s2.labelStopped = false := by
  intro b a p img1 img2 svc n hfound hrep hn1 hn64
  have hne : ¬n = 0 := by omega
  have hbase1 : baseReplicas (some svc.spec) = n := by
    simp [baseReplicas, hrep, hne]
  have hwrap : goUint64 n = n := Int.emod_eq_of_lt (by omega) (by omega)
  refine ⟨⟨serviceNameForApp a p, n, svc.spec.labelRestarts, true,
      svc.spec.labelAsleep, some 0, RestartCondition.any⟩,
    ⟨serviceNameForApp a p, n, svc.spec.labelRestarts, false, false,
      some n, RestartCondition.any⟩,
    svc.version + 1, svc.version + 2, ?_⟩
  have hspec1 : serviceSpecForApp
      { appName := a, process := p, image := img1,
        baseSpec := some svc.spec, isDeploy := false, isIsolatedRun := false,
        processState := stopOnlyState } =
      Except.ok ⟨serviceNameForApp a p, n, svc.spec.labelRestarts, true,
        svc.spec.labelAsleep, some 0, RestartCondition.any⟩ := by
    simp [serviceSpecForApp, stopOnlyState, hbase1, baseRestarts,
      baseIsStopped, baseIsAsleep]
  have hd1 : deployService b a p stopOnlyState img1 =
      { result := Except.ok ()
        backend := fun m =>
          if m = serviceNameForApp a p then
            some ⟨⟨serviceNameForApp a p, n, svc.spec.labelRestarts, true,
              svc.spec.labelAsleep, some 0, RestartCondition.any⟩,
              svc.version + 1⟩
          else b m
        calls := [BackendCall.inspect (serviceNameForApp a p),
          BackendCall.update (serviceNameForApp a p) svc.version] } := by
    simp [deployService, hfound, hspec1]
  have hspec2 : serviceSpecForApp
      { appName := a, process := p, image := img2,
        baseSpec := some (⟨serviceNameForApp a p, n, svc.spec.labelRestarts,
          true, svc.spec.labelAsleep, some 0,
          RestartCondition.any⟩ : ServiceSpec),
        isDeploy := false, isIsolatedRun := false,
        processState := startOnlyState } =
      Except.ok ⟨serviceNameForApp a p, n, svc.spec.labelRestarts, false,
        false, some n, RestartCondition.any⟩ := by
    simp [serviceSpecForApp, startOnlyState, baseReplicas, baseRestarts,
      baseIsStopped, baseIsAsleep, hne, hwrap]
  rw [hd1]
  refine ⟨rfl, by simp, rfl, rfl, rfl, ?_, ?_, rfl, rfl, rfl⟩
  · simp [deployService, hspec2]
  · simp [deployService, hspec2]

/-- C3 witness: a concrete service recording 3 replicas, stopped then
started, ends with 3 replicas recorded and sent to the backend. -/
theorem c3_stop_start_restores_replicas_witness :
    ∃ s1 s2 : ServiceSpec, ∃ v1 v2 : Nat,
      (deployService
        (fun m =>
          if m = "mini-web" then
            some ⟨⟨"mini-web", 3, 0, false, false, some 3,
              RestartCondition.any⟩, 0⟩
          else Option.none)
        "mini" "web" stopOnlyState "i1").result = Except.ok () ∧
      (deployService
        (fun m =>
          if m = "mini-web" then
            some ⟨⟨"mini-web", 3, 0, false, false, some 3,
              RestartCondition.any⟩, 0⟩
          else Option.none)
        "mini" "web" stopOnlyState "i1").backend
          (serviceNameForApp "mini" "web") = some ⟨s1, v1⟩ ∧
      s1.labelReplicas = 3 ∧ s1.replicated = some 0 ∧
      s1.labelStopped = true ∧
      (deployService
        (deployService
          (fun m =>
            if m = "mini-web" then
              some ⟨⟨"mini-web", 3, 0, false, false, some 3,
                RestartCondition.any⟩, 0⟩
            else Option.none)
          "mini" "web" stopOnlyState "i1").backend
        "mini" "web" startOnlyState "i2").result = Except.ok () ∧
      (deployService
        (deployService
          (fun m =>
            if m = "mini-web" then
              some ⟨⟨"mini-web", 3, 0, false, false, some 3,
                RestartCondition.any⟩, 0⟩
            else Option.none)
          "mini" "web" stopOnlyState "i1").backend
        "mini" "web" startOnlyState "i2").backend
          (serviceNameForApp "mini" "web") = some ⟨s2, v2⟩ ∧
      s2.labelReplicas = 3 ∧ s2.replicated = some 3 ∧
      s2.labelStopped = false := by
  have h := c3_stop_start_restores_replicas
    (fun m =>
      if m = "mini-web" then
        some ⟨⟨"mini-web", 3, 0, false, false, some 3,
          RestartCondition.any⟩, 0⟩
      else Option.none)
    "mini" "web" "i1" "i2"
    ⟨⟨"mini-web", 3, 0, false, false, some 3, RestartCondition.any⟩, 0⟩
    3 (by simp [serviceNameForApp]) rfl (by decide) (by decide)
  rcases h with ⟨s1, s2, v1, v2, hs⟩
  exact ⟨s1, s2, v1, v2, by simpa [serviceNameForApp] using hs⟩

/-! ## Claim C4 -/

/-- C4 counterexample: an isolated-run spec (here the reachable call from
`ExecuteCommandIsolated`: app `myapp`, empty process) is named
`myapp-isolated-run`, which is NOT the long-running name for
`(myapp, "")` with suffix `-isolated-run` (that would be
`myapp--isolated-run`): the code appends `"isolated-run"` without a dash
(docker.go line 380). -/
theorem c4_isolated_run_name_counterexample :
    serviceSpecForApp (isolatedOpts "myapp" "img") =
      Except.ok ⟨"myapp-isolated-run", 1, 0, false, false, some 1,
        RestartCondition.any⟩
    ∧ "myapp-isolated-run" ≠ serviceNameForApp "myapp" "" ++ "-isolated-run" := by
  exact ⟨rfl, by decide⟩

/-- C4 amended: build and isolated-run specs force the replica count to
exactly 1; the service actually created for them (through `runOnceCmds`)
carries the non-retrying restart policy `RestartPolicyConditionNone`; a
build spec is named by appending `-build` to the long-running name, while
an isolated-run spec is named by appending `isolated-run` with no extra
dash (both call sites pass an empty process, so the isolated-run name is
the app name followed by `-isolated-run`); neither name ever equals the
long-running name for the same (app, process). -/
theorem c4_build_isolated_amended :
    (∀ (opts : TsuruServiceOpts) (s : ServiceSpec),
        opts.isDeploy = true → opts.isIsolatedRun = false →
        serviceSpecForApp opts = Except.ok s →
        s.labelReplicas = 1
        ∧ s.name = serviceNameForApp opts.appName opts.process ++ "-build"
        ∧ s.name ≠ serviceNameForApp opts.appName opts.process)
    ∧ (∀ (opts : TsuruServiceOpts) (s : ServiceSpec),
        opts.isIsolatedRun = true → opts.isDeploy = false →
        serviceSpecForApp opts = Except.ok s →
        s.labelReplicas = 1
        ∧ s.name = serviceNameForApp opts.appName opts.process ++ "isolated-run"
        ∧ s.name ≠ serviceNameForApp opts.appName opts.process)
    ∧ (∀ (opts : TsuruServiceOpts) (s : ServiceSpec),
        runOnceSpec opts = Except.ok s →
        s.restartCondition = RestartCondition.none)
    ∧ (∀ a img : String,
        runOnceSpec (buildOpts a img) =
          Except.ok ⟨serviceNameForApp a "" ++ "-build", 1, 0, false, false,
            some 1, RestartCondition.none⟩)
    ∧ ∀ a img : String,
        runOnceSpec (isolatedOpts a img) =
          Except.ok ⟨a ++ "-isolated-run", 1, 0, false, false, some 1,
            RestartCondition.none⟩ := by
  have hne : ∀ (x y : String), y.length ≠ 0 → x ++ y ≠ x := by
    intro x y hy h
    have := congrArg String.length h
    rw [String.length_append] at this
    omega
  have hone : goUint64 1 = 1 := by decide
  refine ⟨?_, ?_, ?_, ?_, ?_⟩
  · intro opts s hD hI hs
    simp only [serviceSpecForApp, hD, hI] at hs
    split at hs
    · exact absurd hs (by simp)
    · rw [Except.ok.injEq] at hs
      subst hs
      exact ⟨rfl, rfl, hne _ _ (by decide)⟩
  · intro opts s hI hD hs
    simp only [serviceSpecForApp, hD, hI] at hs
    split at hs
    · exact absurd hs (by simp)
    · rw [Except.ok.injEq] at hs
      subst hs
      exact ⟨rfl, rfl, hne _ _ (by decide)⟩
  · intro opts s hs
    simp only [runOnceSpec] at hs
    cases h : serviceSpecForApp opts with
    | error e => rw [h] at hs; exact absurd hs (by simp)
    | ok s0 =>
        rw [h] at hs
        rw [Except.ok.injEq] at hs
        subst hs
        rfl
  · intro a img
    simp [runOnceSpec, serviceSpecForApp, buildOpts, ProcessState.zero,
      baseReplicas, baseRestarts, baseIsStopped, baseIsAsleep, hone]
  · intro a img
    have hname : serviceNameForApp a "" ++ "isolated-run" =
        a ++ "-isolated-run" := by
      show ((a ++ "-") ++ "") ++ "isolated-run" = a ++ "-isolated-run"
      rw [String.append_empty, String.append_assoc]
      rfl
    rw [← hname]
    simp [runOnceSpec, serviceSpecForApp, isolatedOpts, ProcessState.zero,
      baseReplicas, baseRestarts, baseIsStopped, baseIsAsleep, hone,
      serviceNameForApp]

/-- C4 amended witness: the build and isolated-run names and forced
replica count at a concrete app. -/
theorem c4_build_isolated_amended_witness :
    runOnceSpec (buildOpts "myapp" "img") =
      Except.ok ⟨"myapp--build", 1, 0, false, false, some 1,
        RestartCondition.none⟩
    ∧ runOnceSpec (isolatedOpts "myapp" "img") =
      Except.ok ⟨"myapp-isolated-run", 1, 0, false, false, some 1,
        RestartCondition.none⟩
    ∧ "myapp-isolated-run" ≠ serviceNameForApp "myapp" "" := by
  refine ⟨?_, ?_, ?_⟩
  · have h := c4_build_isolated_amended.2.2.2.1 "myapp" "img"
    simpa [serviceNameForApp] using h
  · exact c4_build_isolated_amended.2.2.2.2 "myapp" "img"
  · have h := c4_build_isolated_amended.2.1 (isolatedOpts "myapp" "img")
      ⟨"myapp-isolated-run", 1, 0, false, false, some 1,
        RestartCondition.any⟩ rfl rfl rfl
    exact h.2.2

/-! ## Claim C5 -/

/-- C5: for an ephemeral run, reaching the attach-and-wait with container
exit code `c` yields the `taskFailed c` error when `c ≠ 0` and success when
`c = 0`; whenever the service was created (spec built and create succeeded,
the backend ID being nonempty) the caller attempts its removal exactly
once, and attempts none when creation never happened; a removal failure
only adds a log line and never changes the returned result. -/
theorem c5_run_once_exit_codes_and_cleanup :
    ∀ (opts : TsuruServiceOpts) (env : RunOnceEnv),
      (∀ id, env.createResult = Except.ok id → id ≠ "") →
      (∀ (sp : ServiceSpec) (id : String) (task : TaskInfo) (code : Int),
          runOnceSpec opts = Except.ok sp →
          env.createResult = Except.ok id →
          env.waitResult = Except.ok task →
          env.nodeClientResult = Except.ok () →
          env.attachResult = Except.ok code →
          (code ≠ 0 →
            (runOnceCmds opts env).2 = Except.error (RunErr.taskFailed code))
          ∧ (code = 0 → (runOnceCmds opts env).2 = Except.ok task))
      ∧ (∀ (sp : ServiceSpec) (id : String),
          runOnceSpec opts = Except.ok sp →
          env.createResult = Except.ok id →
          ∀ rf : Bool, (executeIsolatedRun opts env rf).removeCalls = 1)
      ∧ (∀ e, runOnceSpec opts = Except.error e →
          ∀ rf : Bool, (executeIsolatedRun opts env rf).removeCalls = 0)
      ∧ (∀ m, env.createResult = Except.error m →
          ∀ rf : Bool, (executeIsolatedRun opts env rf).removeCalls = 0)
      ∧ (∀ rf1 rf2 : Bool,
          (executeIsolatedRun opts env rf1).result =
            (executeIsolatedRun opts env rf2).result)
      ∧ ∀ rf : Bool, (executeIsolatedRun opts env rf).logs =
          if (runOnceCmds opts env).1 = "" then []
          else removeServiceAndLog rf := by
  intro opts env hid
  obtain ⟨cr, wr, nr, ar⟩ := env
  have hfst : ∀ (sp : ServiceSpec) (id : String),
      runOnceSpec opts = Except.ok sp → cr = Except.ok id →
      (runOnceCmds opts ⟨cr, wr, nr, ar⟩).1 = id := by
    intro sp id hs hc
    cases wr with
    | error m => simp [runOnceCmds, hs, hc]
    | ok task =>
        cases nr with
        | error m => simp [runOnceCmds, hs, hc]
        | ok u =>
            cases u
            cases ar with
            | error m => simp [runOnceCmds, hs, hc]
            | ok code =>
                simp only [runOnceCmds, hs, hc]
                split <;> rfl
  refine ⟨?_, ?_, ?_, ?_, ?_, ?_⟩
  · intro sp id task code hs hc hw hn ha
    simp only at hc hw hn ha
    constructor
    · intro hcode
      simp [runOnceCmds, hs, hc, hw, hn, ha, hcode]
    · intro hcode
      subst hcode
      simp [runOnceCmds, hs, hc, hw, hn, ha]
  · intro sp id hs hc rf
    simp only at hc
    have h1 := hfst sp id hs hc
    simp [executeIsolatedRun, h1, hid id hc]
  · intro e hs rf
    simp [executeIsolatedRun, runOnceCmds, hs]
  · intro m hc rf
    simp only at hc
    cases hs : runOnceSpec opts with
    | error e => simp [executeIsolatedRun, runOnceCmds, hs]
    | ok sp => simp [executeIsolatedRun, runOnceCmds, hs, hc]
  · intro rf1 rf2
    rfl
  · intro rf
    by_cases h : (runOnceCmds opts ⟨cr, wr, nr, ar⟩).1 = "" <;>
      simp [executeIsolatedRun, h]

/-- C5 witness: the claim's scenario — the ephemeral task exits with code
2 — returns the typed failure carrying 2 and the caller removes the
created service exactly once, logging (and swallowing) a removal failure. -/
theorem c5_run_once_exit_codes_and_cleanup_witness :
    (runOnceCmds (buildOpts "myapp" "img")
        ⟨Except.ok "srv1", Except.ok ⟨"node1", "cont1"⟩, Except.ok (),
          Except.ok 2⟩).2 = Except.error (RunErr.taskFailed 2)
    ∧ (executeIsolatedRun (buildOpts "myapp" "img")
        ⟨Except.ok "srv1", Except.ok ⟨"node1", "cont1"⟩, Except.ok (),
          Except.ok 2⟩ true).removeCalls = 1
    ∧ (executeIsolatedRun (buildOpts "myapp" "img")
        ⟨Except.ok "srv1", Except.ok ⟨"node1", "cont1"⟩, Except.ok (),
          Except.ok 2⟩ true).result =
      (executeIsolatedRun (buildOpts "myapp" "img")
        ⟨Except.ok "srv1", Except.ok ⟨"node1", "cont1"⟩, Except.ok (),
          Except.ok 2⟩ false).result := by
  have h := c5_run_once_exit_codes_and_cleanup (buildOpts "myapp" "img")
    ⟨Except.ok "srv1", Except.ok ⟨"node1", "cont1"⟩, Except.ok (),
      Except.ok 2⟩
    (by intro id hi; injection hi with hi; subst hi; decide)
  refine ⟨?_, ?_, ?_⟩
  · exact (h.1 ⟨"myapp--build", 1, 0, false, false, some 1,
      RestartCondition.none⟩ "srv1" ⟨"node1", "cont1"⟩ 2
      rfl rfl rfl rfl rfl).1 (by decide)
  · exact h.2.1 ⟨"myapp--build", 1, 0, false, false, some 1,
      RestartCondition.none⟩ "srv1" rfl rfl true
  · exact h.2.2.2.2.1 true false

/-! ## Claim C6 -/

/-- C6 counterexample: `serviceManager.RemoveService` on a backend without
the service (the backend reports no-such-service) returns the
`NoSuchService` error — NOT success: provisioner.go lines 886-893 wrap and
return every client error without the not-found check that
`swarmProvisioner.Destroy` performs. -/
theorem c6_remove_not_found_counterexample :
    managerRemoveService (fun _ => Option.none) "myapp" "web" =
      Except.error (RemoveErr.noSuchService "myapp-web")
    ∧ (managerRemoveService (fun _ => Option.none) "myapp" "web").isOk
        = false := by
  exact ⟨rfl, rfl⟩

/-- C6 amended: removal idempotence holds for `swarmProvisioner.Destroy`,
which skips `NoSuchService` errors when removing each process's service
(succeeding on a backend containing none of them), but NOT for
`serviceManager.RemoveService`, which returns the backend's
no-such-service error unchanged. -/
theorem c6_remove_idempotence_amended :
    (∀ (b : Backend) (a p : String),
        b (serviceNameForApp a p) = Option.none →
        managerRemoveService b a p =
          Except.error (RemoveErr.noSuchService (serviceNameForApp a p)))
    ∧ ∀ (b : Backend) (a : String) (ps : List String),
        (∀ p ∈ ps, b (serviceNameForApp a p) = Option.none) →
        destroy b a ps Option.none = Except.ok b := by
  constructor
  · intro b a p h
    simp [managerRemoveService, clientRemoveService, h]
  · intro b a ps h
    have hloop : ∀ names : List String,
        (∀ n ∈ names, b n = Option.none) → destroyLoop b names = (b, []) := by
      intro names
      induction names with
      | nil => intro _; rfl
      | cons n rest ih =>
          intro hall
          have hn := hall n (by simp)
          have hrest : ∀ m ∈ rest, b m = Option.none := fun m hm =>
            hall m (by simp [hm])
          simp [destroyLoop, clientRemoveService, hn, ih hrest]
    have hnames : ∀ n ∈ ps.map (serviceNameForApp a), b n = Option.none := by
      intro n hn
      rcases List.mem_map.mp hn with ⟨p, hp, rfl⟩
      exact h p hp
    simp [destroy, hloop _ hnames]

/-- C6 amended witness: on a backend with no services, removing app
`myapp`'s processes through `Destroy` succeeds while
`serviceManager.RemoveService` for one process returns the not-found
error. -/
theorem c6_remove_idempotence_amended_witness :
    managerRemoveService (fun _ => Option.none) "myapp" "worker" =
      Except.error (RemoveErr.noSuchService "myapp-worker")
    ∧ destroy (fun _ => Option.none) "myapp" ["web", "worker"] Option.none =
      Except.ok (fun _ => Option.none) := by
  constructor
  · have h := c6_remove_idempotence_amended.1 (fun _ => Option.none)
      "myapp" "worker" rfl
    simpa [serviceNameForApp] using h
  · exact c6_remove_idempotence_amended.2 (fun _ => Option.none) "myapp"
      ["web", "worker"] (by intro p hp; rfl)

/-! ## Claim C7 -/

theorem promoteFirst_length (k : Nat) (ns : List SNode) :
    (promoteFirst k ns).length = ns.length := by
  induction ns generalizing k with
  | nil => cases k <;> rfl
  | cons n rest ih =>
      cases k with
      | zero => rfl
      | succ k => simp [promoteFirst, ih]

theorem promoteFirst_get_lt (k : Nat) (ns : List SNode) (i : Nat)
    (h : i < k) :
    (promoteFirst k ns)[i]? =
      ns[i]?.map (fun n => { n with role := NodeRole.manager }) := by
  induction ns generalizing k i with
  | nil => cases k <;> simp [promoteFirst]
  | cons n rest ih =>
      cases k with
      | zero => omega
      | succ k =>
          cases i with
          | zero =>
              cases hn : n.role with
              | manager =>
                  simp [promoteFirst, hn]
                  cases n
                  simp_all
              | worker => simp [promoteFirst, hn]
          | succ i => simp [promoteFirst, ih k i (by omega)]

theorem promoteFirst_get_ge (k : Nat) (ns : List SNode) (i : Nat)
    (h : k ≤ i) :
    (promoteFirst k ns)[i]? = ns[i]? := by
  induction ns generalizing k i with
  | nil => cases k <;> rfl
  | cons n rest ih =>
      cases k with
      | zero => rfl
      | succ k =>
          cases i with
          | zero => omega
          | succ i => simp [promoteFirst, ih k i (by omega)]

theorem promotedIds_filter (k : Nat) (ns : List SNode) :
    promotedIds k ns =
      ((ns.take k).filter (fun n => n.role == NodeRole.worker)).map
        SNode.id := by
  induction ns generalizing k with
  | nil => cases k <;> rfl
  | cons n rest ih =>
      cases k with
      | zero => rfl
      | succ k =>
          cases hn : n.role with
          | manager =>
              have hb : (n.role == NodeRole.worker) = false := by
                rw [hn]; rfl
              simp [promotedIds, hn, List.take_succ_cons, List.filter_cons,
                hb, ih k]
          | worker =>
              have hb : (n.role == NodeRole.worker) = true := by
                rw [hn]; rfl
              simp [promotedIds, hn, List.take_succ_cons, List.filter_cons,
                hb, ih k]

theorem promoteFirst_idem (k : Nat) (ns : List SNode) :
    promoteFirst k (promoteFirst k ns) = promoteFirst k ns := by
  induction ns generalizing k with
  | nil => cases k <;> rfl
  | cons n rest ih =>
      cases k with
      | zero => rfl
      | succ k =>
          cases hn : n.role <;>
            simp [promoteFirst, hn, ih k]

theorem promotedIds_promoteFirst (k : Nat) (ns : List SNode) :
    promotedIds k (promoteFirst k ns) = [] := by
  induction ns generalizing k with
  | nil => cases k <;> rfl
  | cons n rest ih =>
      cases k with
      | zero => rfl
      | succ k =>
          cases hn : n.role <;>
            simp [promoteFirst, promotedIds, hn, ih k]

theorem managerCount_cons (x : SNode) (l : List SNode) :
    managerCount (x :: l) =
      (if x.role = NodeRole.manager then 1 else 0) + managerCount l := by
  simp [managerCount, List.countP_cons]
  split <;> omega

theorem managerCount_promoteFirst (k : Nat) (ns : List SNode) :
    managerCount (promoteFirst k ns) =
      min k ns.length + managerCount (ns.drop k) := by
  induction ns generalizing k with
  | nil =>
      simp [promoteFirst, managerCount]
  | cons n rest ih =>
      cases k with
      | zero => simp [promoteFirst]
      | succ k =>
          have hrole : (if n.role = NodeRole.manager then n
              else { n with role := NodeRole.manager }).role =
              NodeRole.manager := by
            cases hn : n.role <;> simp [hn]
          show managerCount ((if n.role = NodeRole.manager then n
              else { n with role := NodeRole.manager })
              :: promoteFirst k rest) = _
          rw [managerCount_cons, if_pos hrole, ih k]
          show 1 + (min k rest.length + managerCount (rest.drop k)) =
            min (k + 1) (rest.length + 1) + managerCount (rest.drop k)
          omega

/-- C7 counterexample: on eight nodes that are all already managers,
`redistributeManagers` leaves all eight as managers (it never demotes), so
the number of manager-role nodes exceeds `min(node count, 7) = 7`,
refuting the claimed invariant. -/
theorem c7_manager_cap_counterexample :
    managerCount (redistributeManagers
      [⟨"n1", NodeRole.manager⟩, ⟨"n2", NodeRole.manager⟩,
        ⟨"n3", NodeRole.manager⟩, ⟨"n4", NodeRole.manager⟩,
        ⟨"n5", NodeRole.manager⟩, ⟨"n6", NodeRole.manager⟩,
        ⟨"n7", NodeRole.manager⟩, ⟨"n8", NodeRole.manager⟩]).1 = 8
    ∧ min 8 maxSwarmManagers < 8 := by
  exact ⟨by decide, by decide⟩

/-- C7 amended: `redistributeManagers` promotes, in list order, exactly the
non-manager nodes among the first `min(node count, 7)` and touches no other
node; a second invocation on its own output performs no promotion and
changes nothing; and the resulting number of managers is
`min(node count, 7)` plus the pre-existing managers beyond the first
`min(node count, 7)` positions — so it stays within `min(node count, 7)`
exactly when no pre-existing manager sits beyond those positions (the
function never demotes, so the originally claimed unconditional cap fails,
see the counterexample). -/
theorem c7_redistribute_managers_amended :
    ∀ nodes : List SNode,
      (redistributeManagers nodes).1.length = nodes.length
      ∧ (∀ i : Nat, i < min nodes.length maxSwarmManagers →
          (redistributeManagers nodes).1[i]? =
            nodes[i]?.map (fun n => { n with role := NodeRole.manager }))
      ∧ (∀ i : Nat, min nodes.length maxSwarmManagers ≤ i →
          (redistributeManagers nodes).1[i]? = nodes[i]?)
      ∧ (redistributeManagers nodes).2 =
          ((nodes.take (min nodes.length maxSwarmManagers)).filter
            (fun n => n.role == NodeRole.worker)).map SNode.id
      ∧ redistributeManagers (redistributeManagers nodes).1 =
          ((redistributeManagers nodes).1, [])
      ∧ managerCount (redistributeManagers nodes).1 =
          min nodes.length maxSwarmManagers +
            managerCount (nodes.drop (min nodes.length maxSwarmManagers))
      ∧ (managerCount (nodes.drop (min nodes.length maxSwarmManagers)) = 0 →
          managerCount (redistributeManagers nodes).1 ≤
            min nodes.length maxSwarmManagers) := by
  intro nodes
  have hlen : (promoteFirst (min nodes.length maxSwarmManagers) nodes).length
      = nodes.length := promoteFirst_length _ _
  refine ⟨hlen, ?_, ?_, ?_, ?_, ?_, ?_⟩
  · intro i hi
    exact promoteFirst_get_lt _ _ _ hi
  · intro i hi
    exact promoteFirst_get_ge _ _ _ hi
  · exact promotedIds_filter _ _
  · simp only [redistributeManagers, hlen]
    rw [promoteFirst_idem, promotedIds_promoteFirst]
  · rw [show (redistributeManagers nodes).1 =
        promoteFirst (min nodes.length maxSwarmManagers) nodes from rfl,
      managerCount_promoteFirst]
    omega
  · intro h0
    rw [show (redistributeManagers nodes).1 =
        promoteFirst (min nodes.length maxSwarmManagers) nodes from rfl,
      managerCount_promoteFirst, h0]
    omega

/-- C7 amended witness: three nodes, the second already a manager — the
first and third get promoted, a second run promotes nobody, and the
manager count is `min(3, 7) = 3`. -/
theorem c7_redistribute_managers_amended_witness :
    (redistributeManagers
      [⟨"n1", NodeRole.worker⟩, ⟨"n2", NodeRole.manager⟩,
        ⟨"n3", NodeRole.worker⟩]).2 = ["n1", "n3"]
    ∧ redistributeManagers (redistributeManagers
        [⟨"n1", NodeRole.worker⟩, ⟨"n2", NodeRole.manager⟩,
          ⟨"n3", NodeRole.worker⟩]).1 =
      ((redistributeManagers
        [⟨"n1", NodeRole.worker⟩, ⟨"n2", NodeRole.manager⟩,
          ⟨"n3", NodeRole.worker⟩]).1, [])
    ∧ managerCount (redistributeManagers
        [⟨"n1", NodeRole.worker⟩, ⟨"n2", NodeRole.manager⟩,
          ⟨"n3", NodeRole.worker⟩]).1 ≤ 3 := by
  have h := c7_redistribute_managers_amended
    [⟨"n1", NodeRole.worker⟩, ⟨"n2", NodeRole.manager⟩,
      ⟨"n3", NodeRole.worker⟩]
  refine ⟨by simpa using h.2.2.2.1, h.2.2.2.2.1, ?_⟩
  have hc := h.2.2.2.2.2.2 (by decide)
  exact le_trans hc (by decide)

/-! ## Claim C8 -/

/-- C8 counterexample: `kubernetesProvisioner.Units` does NOT degrade to an
empty result on the distinguished no-cluster error — it propagates it
(`return nil, err` with no `errNoCluster` check), unlike the swarm `Units`
and both `ListNodes`. -/
theorem c8_kube_units_counterexample :
    kubeUnits (Except.error KubeErr.noCluster : Except KubeErr Unit)
        (fun _ => Except.ok ([] : List Unit)) =
      Except.error KubeErr.noCluster
    ∧ (kubeUnits (Except.error KubeErr.noCluster : Except KubeErr Unit)
        (fun _ => Except.ok ([] : List Unit))).isOk = false := by
  exact ⟨rfl, rfl⟩

/-- C8 amended: on the distinguished no-cluster error, swarm `Units`, swarm
`ListNodes` and kubernetes `ListNodes` return an empty result with no
error, while kubernetes `Units` propagates the error; other client
failures propagate on all of them (shown here for swarm `Units`). -/
theorem c8_no_cluster_reads_amended :
    (∀ {γ υ : Type} (body : γ → Except SwarmErr (List υ)),
        swarmUnits (Except.error SwarmErr.noSwarmNode) body = Except.ok [])
    ∧ (∀ {γ ν : Type} (body : γ → Except SwarmErr (List ν)),
        swarmListNodes (Except.error SwarmErr.noSwarmNode) body =
          Except.ok [])
    ∧ (∀ {γ ν : Type} (body : γ → Except KubeErr (List ν)),
        kubeListNodes (Except.error KubeErr.noCluster) body = Except.ok [])
    ∧ (∀ {γ υ : Type} (body : γ → Except KubeErr (List υ)),
        kubeUnits (Except.error KubeErr.noCluster) body =
          Except.error KubeErr.noCluster)
    ∧ ∀ {γ υ : Type} (m : String) (body : γ → Except SwarmErr (List υ)),
        swarmUnits (Except.error (SwarmErr.other m)) body =
          Except.error (SwarmErr.other m) := by
  refine ⟨fun _ => rfl, fun _ => rfl, fun _ => rfl, fun _ => rfl, ?_⟩
  intro γ υ m body
  simp [swarmUnits]

/-- C8 amended witness: concrete instantiations of the degradation and
propagation behaviours. -/
theorem c8_no_cluster_reads_amended_witness :
    swarmUnits (Except.error SwarmErr.noSwarmNode : Except SwarmErr Unit)
        (fun _ => Except.ok ([] : List Unit)) = Except.ok []
    ∧ kubeListNodes (Except.error KubeErr.noCluster : Except KubeErr Unit)
        (fun _ => Except.ok ([] : List Unit)) = Except.ok []
    ∧ swarmUnits (Except.error (SwarmErr.other "boom") : Except SwarmErr Unit)
        (fun _ => Except.ok ([] : List Unit)) =
      Except.error (SwarmErr.other "boom") := by
  exact ⟨c8_no_cluster_reads_amended.1 _,
    c8_no_cluster_reads_amended.2.2.1 _,
    c8_no_cluster_reads_amended.2.2.2.2 "boom" _⟩

/-! ## Claim C9 -/

/-- C9: `findTaskByContainerId` returns the first task whose container ID
has the caller-supplied instance ID as a prefix (the supplied ID may be a
short prefix of the full container ID — short-ID lookup; a matched task's
character list literally begins with the supplied ID's characters), and
when no task matches it returns a `UnitNotFoundError` carrying the
supplied ID. -/
theorem c9_find_task_by_container_id :
    ∀ (tasks : List STask) (unitId : String),
      findTaskByContainerId tasks unitId =
        (tasks.find? (fun t => goHasPrefix t.containerID unitId)).elim
          (Except.error unitId) Except.ok
      ∧ (∀ t : STask, findTaskByContainerId tasks unitId = Except.ok t →
          unitId.data <+: t.containerID.data)
      ∧ ((∀ t ∈ tasks, goHasPrefix t.containerID unitId = false) →
          findTaskByContainerId tasks unitId = Except.error unitId) := by
  intro tasks unitId
  have hmain : findTaskByContainerId tasks unitId =
      (tasks.find? (fun t => goHasPrefix t.containerID unitId)).elim
        (Except.error unitId) Except.ok := by
    induction tasks with
    | nil => rfl
    | cons t ts ih =>
        by_cases h : goHasPrefix t.containerID unitId = true
        · simp [findTaskByContainerId, List.find?_cons, h]
        · rw [Bool.not_eq_true] at h
          simp [findTaskByContainerId, List.find?_cons, h, ih]
  refine ⟨hmain, ?_, ?_⟩
  · intro t ht
    rw [hmain] at ht
    cases hf : tasks.find? (fun t => goHasPrefix t.containerID unitId) with
    | none => rw [hf] at ht; exact absurd ht (by simp)
    | some t0 =>
        rw [hf] at ht
        have ht0 := List.find?_some hf
        simp only [Option.elim, Except.ok.injEq] at ht
        cases ht
        exact List.isPrefixOf_iff_prefix.mp ht0
  · intro hnone
    rw [hmain, List.find?_eq_none.mpr ?hn]
    · rfl
    case hn =>
      intro t ht
      simp [hnone t ht]

/-- C9 witness: the short ID `abc` finds the task with container ID
`abcdef` (first match), and an ID matching nothing yields the not-found
error carrying that ID. -/
theorem c9_find_task_by_container_id_witness :
    findTaskByContainerId [⟨"abcdef"⟩, ⟨"abczz"⟩] "abc" =
      Except.ok ⟨"abcdef"⟩
    ∧ ("abc" : String).data <+: ("abcdef" : String).data
    ∧ findTaskByContainerId [⟨"abcdef"⟩, ⟨"abczz"⟩] "zzz" =
      Except.error "zzz" := by
  have h1 := (c9_find_task_by_container_id [⟨"abcdef"⟩, ⟨"abczz"⟩] "abc").1
  have h2 := (c9_find_task_by_container_id [⟨"abcdef"⟩, ⟨"abczz"⟩] "abc").2.1
    ⟨"abcdef"⟩
  have h3 := (c9_find_task_by_container_id [⟨"abcdef"⟩, ⟨"abczz"⟩] "zzz").2.2
    (by decide)
  refine ⟨?_, ?_, h3⟩
  · rw [h1]; rfl
  · exact h2 (by rw [h1]; rfl)

/-! ## Claim C10 -/

/-- C10: `destroyBucket` deletes, in this fixed order, the IAM user policy
`app-<lowercased app name>-bucket`, the bucket named by `TSURU_S3_BUCKET`,
the access key named by `TSURU_S3_ACCESS_KEY_ID`, and the IAM user; it
returns at the first failing step, attempting none of the later deletions
and undoing none of the earlier ones (the call trace is exactly the prefix
up to and including the failing call). -/
theorem c10_destroy_bucket_order :
    ∀ (appName bucketName accessKeyId : String) (env : AwsEnv),
      (∀ e, env.deleteUserPolicyErr = some e →
        destroyBucket appName bucketName accessKeyId env =
          (Except.error e,
            [S3Call.deleteUserPolicy ("app-" ++ goToLower appName ++ "-bucket")
              (goToLower appName)]))
      ∧ (∀ e, env.deleteUserPolicyErr = Option.none →
          env.delBucketErr = some e →
          destroyBucket appName bucketName accessKeyId env =
            (Except.error e,
              [S3Call.deleteUserPolicy ("app-" ++ goToLower appName ++ "-bucket")
                (goToLower appName),
                S3Call.delBucket bucketName]))
      ∧ (∀ e, env.deleteUserPolicyErr = Option.none →
          env.delBucketErr = Option.none →
          env.deleteAccessKeyErr = some e →
          destroyBucket appName bucketName accessKeyId env =
            (Except.error e,
              [S3Call.deleteUserPolicy ("app-" ++ goToLower appName ++ "-bucket")
                (goToLower appName),
                S3Call.delBucket bucketName,
                S3Call.deleteAccessKey accessKeyId]))
      ∧ (∀ e, env.deleteUserPolicyErr = Option.none →
          env.delBucketErr = Option.none →
          env.deleteAccessKeyErr = Option.none →
          env.deleteUserErr = some e →
          destroyBucket appName bucketName accessKeyId env =
            (Except.error e,
              [S3Call.deleteUserPolicy ("app-" ++ goToLower appName ++ "-bucket")
                (goToLower appName),
                S3Call.delBucket bucketName,
                S3Call.deleteAccessKey accessKeyId,
                S3Call.deleteUser (goToLower appName)]))
      ∧ (env.deleteUserPolicyErr = Option.none →
          env.delBucketErr = Option.none →
          env.deleteAccessKeyErr = Option.none →
          env.deleteUserErr = Option.none →
          destroyBucket appName bucketName accessKeyId env =
            (Except.ok (),
              [S3Call.deleteUserPolicy ("app-" ++ goToLower appName ++ "-bucket")
                (goToLower appName),
                S3Call.delBucket bucketName,
                S3Call.deleteAccessKey accessKeyId,
                S3Call.deleteUser (goToLower appName)])) := by
  intro appName bucketName accessKeyId env
  obtain ⟨e1, e2, e3, e4⟩ := env
  refine ⟨?_, ?_, ?_, ?_, ?_⟩
  · intro e h1
    simp only at h1
    simp [destroyBucket, h1]
  · intro e h1 h2
    simp only at h1 h2
    simp [destroyBucket, h1, h2]
  · intro e h1 h2 h3
    simp only at h1 h2 h3
    simp [destroyBucket, h1, h2, h3]
  · intro e h1 h2 h3 h4
    simp only at h1 h2 h3 h4
    simp [destroyBucket, h1, h2, h3, h4]
  · intro h1 h2 h3 h4
    simp only at h1 h2 h3 h4
    simp [destroyBucket, h1, h2, h3, h4]

/-- C10 witness: app `MyApp` with bucket deletion failing — the policy
deletion was attempted first (with the lowercased names), the bucket
deletion failed, and neither the access key nor the user deletion was
attempted. -/
theorem c10_destroy_bucket_order_witness :
    destroyBucket "MyApp" "mybucket" "AKID"
        ⟨Option.none, some "bucket delete failed", Option.none,
          Option.none⟩ =
      (Except.error "bucket delete failed",
        [S3Call.deleteUserPolicy "app-myapp-bucket" "myapp",
          S3Call.delBucket "mybucket"]) := by
  have h := (c10_destroy_bucket_order "MyApp" "mybucket" "AKID"
    ⟨Option.none, some "bucket delete failed", Option.none,
      Option.none⟩).2.1 "bucket delete failed" rfl rfl
  simpa using h
